import Mathlib

/-!
# Verification of the browser-warmer core against its specification

Shallow embedding of the algorithmic core of the `browser-warmer` repository:
the seeded pseudo-random source and behavior generators (`src/utils/random.js`),
the site-queue builder (`SitesManager.getSites`), the navigation retry logic
(`BrowserController.goto`), the session orchestrator (`SessionManager` in
`src/core/session.js`) and the control-protocol command handler
(`WebSocketHandler._handleCommand` in `src/index.js`).

JavaScript numbers are modelled as exact rationals (`ℚ`) where the source only
performs field and floor operations, as naturals/integers where the source
works with counts, and as reals (`ℝ`) for the Box-Muller gaussian, which uses
transcendental functions.  32-bit integer operations of the Mulberry32
generator are modelled as naturals reduced modulo `2^32` (the unsigned bit
pattern; JavaScript's `|0`, `>>>`, `^`, `Math.imul` all agree with this view
modulo `2^32`).  `await`-based sequential control flow is modelled as plain
sequential composition; sleeps have no observable effect on session state and
are modelled as no-ops.  External collaborators (the page capability, popup
dismissal, the stay-on-page action loop, link-following targets, search
round-trips and browser initialization) enter the model as oracle parameters
recording the result each external call returns; the theorems quantify over
those oracles.
-/

namespace BrowserWarmer

/-! ## Pseudo-random source: `SeededRandom` (Mulberry32), `src/utils/random.js` lines 10-41 -/

/-- Reduction modulo `2^32`: the unsigned view of JavaScript's 32-bit results. -/
def m32 (n : ℕ) : ℕ := n % 4294967296

/-- `class SeededRandom { constructor(seed) { this.seed = seed; this.state = seed; } }` -/
structure SeededRandom where
  seed : ℕ
  state : ℕ
  deriving Repr, DecidableEq

/-- The constructor: both fields start at the seed. -/
def SeededRandom.init (seed : ℕ) : SeededRandom := ⟨seed, seed⟩

/-- `this.state |= 0; this.state = (this.state + 0x6D2B79F5) | 0;` -/
def mulberryStep (state : ℕ) : ℕ := m32 (m32 state + 0x6D2B79F5)

/-- The output pipeline of `next()` applied to the updated state:
`t = Math.imul(s ^ (s >>> 15), 1 | s); t = (t + Math.imul(t ^ (t >>> 7), 61 | t)) ^ t;`
returning `(t ^ (t >>> 14)) >>> 0`. -/
def mulberryOut (s : ℕ) : ℕ :=
  let t1 := m32 ((s ^^^ (s >>> 15)) * (s ||| 1))
  let t2 := m32 (t1 + m32 ((t1 ^^^ (t1 >>> 7)) * (t1 ||| 61))) ^^^ t1
  t2 ^^^ (t2 >>> 14)

/-- `next()` : returns the draw in `[0,1)` (exact division by `4294967296`)
and the successor generator.  Only `state` advances; `seed` is untouched. -/
def SeededRandom.next (r : SeededRandom) : ℚ × SeededRandom :=
  ((mulberryOut (mulberryStep r.state) : ℚ) / 4294967296,
    ⟨r.seed, mulberryStep r.state⟩)

/-- The list of the first `n` outputs of `next()`. -/
def SeededRandom.run : SeededRandom → ℕ → List ℚ
  | _, 0 => []
  | r, n + 1 => (r.next.1) :: (r.next.2.run n)

/-! ## Stream random source and behavior generators, `src/utils/random.js`

`Random.int`, `Random.bool`, `Timing.scrollPause` and `Behavior.scrollPattern`
draw from an `rng` object whose `next()` yields numbers in `[0,1)`.  The
source of draws is modelled as a stream `ℕ → ℚ` with an explicit position,
one cell consumed per `next()` call, in exactly the order the JavaScript
evaluates them. -/

structure Rng where
  stream : ℕ → ℚ
  pos : ℕ

def Rng.next (r : Rng) : ℚ × Rng := (r.stream r.pos, ⟨r.stream, r.pos + 1⟩)

/-- `Random.int(min, max)` : `Math.floor(rng.next() * (max - min + 1)) + min`. -/
def randInt (lo hi : ℤ) (r : Rng) : ℤ × Rng :=
  (⌊r.next.1 * ((hi : ℚ) - (lo : ℚ) + 1)⌋ + lo, r.next.2)

/-- `Random.bool(probability)` : `rng.next() < probability`. -/
def randBool (p : ℚ) (r : Rng) : Bool × Rng :=
  (decide (r.next.1 < p), r.next.2)

/-- `Timing.scrollPause`: quick glance with probability 0.3, else a reading pause. -/
def scrollPause (r : Rng) : ℤ × Rng :=
  let b := randBool 0.3 r
  if b.1 then randInt 100 500 b.2 else randInt 800 3000 b.2

inductive ScrollKind where
  | scroll
  | scrollToTop
  deriving Repr, DecidableEq

/-- One entry of the list returned by `Behavior.scrollPattern`
(`{type, from, to, duration, pause}`). -/
structure ScrollAction where
  kind : ScrollKind
  fromY : ℚ
  toY : ℚ
  duration : ℤ
  pause : ℤ
  deriving Repr, DecidableEq

/-- One iteration of the `for` loop of `Behavior.scrollPattern`
(`src/utils/random.js` lines 375-417): pick an amount from the three-way
mixture, a direction (down with probability 0.85), clamp the new offset into
`[0, maxScroll]`, emit a `scroll` action only when the offset moved, then with
probability 0.05 — and only when the current offset exceeds the viewport
height — emit an extra `scrollToTop` action.  Returns the emitted actions, the
new current offset, and the advanced rng. -/
def scrollStep (vh maxScroll y : ℚ) (r : Rng) : List ScrollAction × ℚ × Rng :=
  let p1 := randBool 0.1 r
  let p2 :=
    if p1.1 then randInt 500 1000 p1.2
    else
      let ps := randBool 0.2 p1.2
      if ps.1 then randInt 50 150 ps.2 else randInt 150 400 ps.2
  let p3 := randBool 0.85 p2.2
  let amt : ℚ := if p3.1 then (p2.1 : ℚ) else -(p2.1 : ℚ)
  let newY := max 0 (min maxScroll (y + amt))
  let q1 : List ScrollAction × ℚ × Rng :=
    if newY ≠ y then
      let pd := randInt 200 600 p3.2
      let pp := scrollPause pd.2
      ([⟨.scroll, y, newY, pd.1, pp.1⟩], newY, pp.2)
    else ([], y, p3.2)
  let p4 := randBool 0.05 q1.2.2
  if p4.1 ∧ vh < q1.2.1 then
    let pd := randInt 500 1000 p4.2
    let pp := randInt 1000 3000 pd.2
    (q1.1 ++ [⟨.scrollToTop, q1.2.1, 0, pd.1, pp.1⟩], 0, pp.2)
  else (q1.1, q1.2.1, p4.2)

/-- The scroll loop, `scrollCount` iterations. -/
def scrollLoop (vh maxScroll : ℚ) : ℕ → ℚ → Rng → List ScrollAction
  | 0, _, _ => []
  | n + 1, y, r =>
    let s := scrollStep vh maxScroll y r
    s.1 ++ scrollLoop vh maxScroll n s.2.1 s.2.2

/-- `Behavior.scrollPattern(pageHeight, viewportHeight, rng)`. -/
def scrollPattern (pageHeight viewportHeight : ℚ) (r : Rng) : List ScrollAction :=
  let maxScroll := pageHeight - viewportHeight
  let c := randInt 3 12 r
  scrollLoop viewportHeight maxScroll c.1.toNat 0 c.2

/-! ## Statistical distributions, `src/utils/random.js` lines 126-220

`Distribution.gaussian` uses `Math.sqrt`, `Math.log` and `Math.cos`
(Box-Muller), so this part of the model lives in `ℝ`.  The `do … while
(u1 === 0)` resampling loop of the source is unbounded; it is modelled with an
explicit unrolling bound (`fuel`), and the theorems below hold for every
bound. -/

noncomputable section

structure RngR where
  stream : ℕ → ℝ
  pos : ℕ

def RngR.next (r : RngR) : ℝ × RngR := (r.stream r.pos, ⟨r.stream, r.pos + 1⟩)

/-- The Box-Muller kernel: `Math.sqrt(-2.0 * Math.log(u1)) * Math.cos(2.0 * Math.PI * u2)`. -/
def gaussZ (u1 u2 : ℝ) : ℝ :=
  Real.sqrt (-2 * Real.log u1) * Real.cos (2 * Real.pi * u2)

/-- `do { u1 = rng.next(); u2 = rng.next(); } while (u1 === 0)`. -/
def drawPair : ℕ → RngR → (ℝ × ℝ) × RngR
  | 0, r => ((r.next.1, r.next.2.next.1), r.next.2.next.2)
  | fuel + 1, r =>
    if r.next.1 = 0 then drawPair fuel r.next.2.next.2
    else ((r.next.1, r.next.2.next.1), r.next.2.next.2)

/-- `Distribution.gaussian(mean, stdDev, rng)` : `z * stdDev + mean`. -/
def gaussian (mean sd : ℝ) (fuel : ℕ) (r : RngR) : ℝ × RngR :=
  let p := drawPair fuel r
  (gaussZ p.1.1 p.1.2 * sd + mean, p.2)

/-- The rejection loop of `Distribution.gaussianBounded`: redraw while the
value is outside `[lo, hi]` and fewer than 100 attempts were made.  `n` is the
number of further attempts still allowed (the source allows 100 in total). -/
def gbLoop (mean sd lo hi : ℝ) (fuel : ℕ) : ℕ → RngR → ℝ × RngR
  | 0, r => gaussian mean sd fuel r
  | n + 1, r =>
    let g := gaussian mean sd fuel r
    if g.1 < lo ∨ hi < g.1 then gbLoop mean sd lo hi fuel n g.2 else g

/-- `Distribution.gaussianBounded(mean, stdDev, min, max, rng)` :
the rejection loop followed by `Math.max(min, Math.min(max, value))`. -/
def gaussianBounded (mean sd lo hi : ℝ) (fuel : ℕ) (r : RngR) : ℝ :=
  max lo (min hi (gbLoop mean sd lo hi fuel 99 r).1)

end

/-! ## Site queue construction: `SitesManager.getSites`

Pipeline of the source: collect sites of the selected categories → append
`options.custom` → drop `options.exclude` (case-insensitive) → remove
duplicates with a JS `Set` (keeps first occurrences) → drop sites matching
`excludePatterns` (regular-expression tests, modelled as abstract `String →
Bool` predicates) → Fisher-Yates shuffle unless `options.shuffle === false` →
`slice(0, maxSites)` when `maxSites > 0`. -/

/-- `[...new Set(sites)]`: keep the first occurrence of each element.  `seen`
accumulates the elements already emitted. -/
def setDedupAux : List String → List String → List String
  | _, [] => []
  | seen, x :: xs =>
    if x ∈ seen then setDedupAux seen xs else x :: setDedupAux (x :: seen) xs

def setDedup (l : List String) : List String := setDedupAux [] l

/-- The destructuring swap of `Random.shuffle`.  `Math.random()` draws lie in
`[0,1)` so both indices are always in range in the source; the guard makes the
model total. -/
def lswap (l : List String) (i j : ℕ) : List String :=
  if i < l.length ∧ j < l.length then
    (l.set i (l.getD j "")).set j (l.getD i "")
  else l

/-- The Fisher-Yates loop of `Random.shuffle`
(`for (let i = length-1; i > 0; i--) { j = Math.floor(rng.next()*(i+1)); swap }`).
The first argument counts draws consumed; the second is the current index. -/
def fyAux (draw : ℕ → ℚ) : ℕ → ℕ → List String → List String
  | _, 0, l => l
  | k, i + 1, l =>
    fyAux draw (k + 1) i (lswap l (i + 1) (⌊draw k * ((i : ℚ) + 2)⌋).toNat)

/-- `Random.shuffle(array, rng)`. -/
def shuffle (draw : ℕ → ℚ) (l : List String) : List String :=
  fyAux draw 0 (l.length - 1) l

/-- The loaded sites file: category name → site list, plus optional exclusion
patterns (regular expressions, modelled as abstract tests). -/
structure SitesData where
  categories : List (String × List String)
  excludePatterns : Option (List (String → Bool))

/-- The `options` argument of `getSites`. -/
structure SiteOptions where
  custom : Option (List String)
  exclude : Option (List String)
  maxSites : Option ℤ
  shuffle : Option Bool

/-- `this._sites.categories[category] || []`. -/
def lookupSites (cats : List (String × List String)) (name : String) : List String :=
  (cats.lookup name).getD []

/-- Category selection, site collection, `custom` append and `exclude` filter
(everything before the `Set`-dedup). -/
def collectSites (data : SitesData) (categories : List String)
    (opts : SiteOptions) : List String :=
  let allCategories := data.categories.map Prod.fst
  let selected :=
    if "all" ∈ categories then allCategories
    else categories.filter (fun c => allCategories.contains c)
  let sites0 := (selected.map (lookupSites data.categories)).flatten
  let sites1 := sites0 ++ (opts.custom.getD [])
  match opts.exclude with
  | some ex =>
    let exSet := ex.map String.toLower
    sites1.filter (fun s => !(exSet.contains s.toLower))
  | none => sites1

/-- `Set`-dedup followed by the `excludePatterns` filter. -/
def dedupedSites (data : SitesData) (categories : List String)
    (opts : SiteOptions) : List String :=
  let sites3 := setDedup (collectSites data categories opts)
  match data.excludePatterns with
  | some pats => sites3.filter (fun site => !(pats.any (fun p => p site)))
  | none => sites3

/-- `SitesManager.getSites(categories, options)` (`rng` draws feed the
optional shuffle). -/
def getSites (data : SitesData) (categories : List String) (opts : SiteOptions)
    (draw : ℕ → ℚ) : List String :=
  let sites4 := dedupedSites data categories opts
  let sites5 := if opts.shuffle ≠ some false then shuffle draw sites4 else sites4
  match opts.maxSites with
  | some m => if 0 < m then sites5.take m.toNat else sites5
  | none => sites5

/-! ## Navigation retry: `BrowserController.goto` (`src/core/browser.js`)

`goto` tries up to `maxRetries` attempts (default 3); between failed attempts
it waits `Math.min(1000 * Math.pow(2, attempt - 1), 10000)` ms; after the last
failure it re-throws the last error.  The per-attempt outcome is an oracle
`nav : ℕ → Except String ℕ` (error message or HTTP status).  The model
returns the final outcome together with the list of backoff delays taken. -/

def gotoAux (nav : ℕ → Except String ℕ) : ℕ → ℕ → Except String ℕ × List ℕ
  | attempt, 0 => (nav attempt, [])
  | attempt, remaining + 1 =>
    match nav attempt with
    | .ok v => (.ok v, [])
    | .error _ =>
      let d := min (1000 * 2 ^ (attempt - 1)) 10000
      let rest := gotoAux nav (attempt + 1) remaining
      (rest.1, d :: rest.2)

/-- `BrowserController.goto(url, options)` with `maxRetries` attempts,
starting at attempt 1. -/
def gotoModel (nav : ℕ → Except String ℕ) (maxRetries : ℕ) :
    Except String ℕ × List ℕ :=
  gotoAux nav 1 (maxRetries - 1)

/-! ## Session orchestrator: `SessionManager` (`src/core/session.js`) -/

inductive SessionState where
  | idle
  | starting
  | running
  | paused
  | stopping
  | stopped
  | error
  deriving Repr, DecidableEq

/-- One entry of `stats.errors` (`{type, url?, message}`; wall-clock times are
not modelled). -/
structure SessionError where
  etype : String
  url : Option String
  message : String
  deriving Repr, DecidableEq

/-- `this.stats` of `SessionManager`.  Timestamps are opaque naturals. -/
structure SessionStats where
  startTime : Option ℕ
  endTime : Option ℕ
  sitesVisited : ℕ
  sitesSuccessful : ℕ
  sitesFailed : ℕ
  searchesPerformed : ℕ
  linksClicked : ℕ
  totalScrollDistance : ℕ
  pagesViewed : ℕ
  errors : List SessionError
  visitedUrls : List String
  deriving Repr, DecidableEq

/-- Events emitted by `SessionManager` (the payloads the claims mention). -/
inductive Event where
  | stateChange (s : SessionState)
  | siteStart (url : String)
  | pageVisited (url : String)
  | captchaDetected (url : String)
  | siteComplete (url : String)
  | siteFailed (url : String)
  | started (siteCount : ℕ)
  | completed
  | breakStart
  | breakEnd
  | searchPerformed
  | pausedEv
  | resumedEv
  | stoppedEv
  | errorEv
  deriving Repr, DecidableEq

/-- The orchestrator's state: FSM state, statistics, site queue, cooperative
stop flag, and the chronological list of emitted events. -/
structure Session where
  state : SessionState
  stats : SessionStats
  siteQueue : List String
  shouldStop : Bool
  events : List Event
  deriving Repr, DecidableEq

def initialStats : SessionStats :=
  ⟨none, none, 0, 0, 0, 0, 0, 0, 0, [], []⟩

/-- A freshly constructed `SessionManager`. -/
def initialSession : Session :=
  ⟨.idle, initialStats, [], false, []⟩

/-- One entry of `stayResult.actions` as consumed by `_visitSite`:
`{type:'scroll', totalScrolled}` adds to the scroll distance when truthy,
`{type:'click', clicked}` bumps `linksClicked` when clicked. -/
inductive StayAct where
  | scroll (totalScrolled : ℕ)
  | click (clicked : Bool)
  | other
  deriving Repr, DecidableEq

/-- Result of `actions.stayOnPage` (the fields `_visitSite` reads). -/
structure StayResult where
  actions : List StayAct
  navigatedAway : Bool
  deriving Repr, DecidableEq

/-- Oracle describing what the external calls of one `_visitSite` return:
the composed `browser.goto` outcome, `hasCaptcha` (which catches internally
and never throws), `stayOnPage`, and per-depth data for `_followLinks`
(the `Random.bool(0.3 / depth)` draw and the recursive `stayOnPage`). -/
structure VisitEnv where
  gotoR : Except String ℕ
  captcha : Bool
  stayR : Except String StayResult
  follow : ℕ → Bool × Except String StayResult

/-- The configuration fields `SessionManager` reads (`Config.get()`). -/
structure Config where
  categories : List String
  custom : Option (List String)
  exclude : Option (List String)
  maxSites : Option ℤ
  shuffleSites : Option Bool
  searches : Bool
  searchCount : ℕ
  maxPages : ℕ
  maxDuration : ℚ
  breakInterval : ℚ
  maxDepth : ℕ
  clickLinks : Bool

/-- Stats update for one stay action
(the loop over `stayResult.actions` in `_visitSite`). -/
def applyStayAct (st : SessionStats) : StayAct → SessionStats
  | .scroll n =>
    if n ≠ 0 then { st with totalScrollDistance := st.totalScrollDistance + n } else st
  | .click c =>
    if c then { st with linksClicked := st.linksClicked + 1 } else st
  | .other => st

def applyStayActs (acts : List StayAct) (st : SessionStats) : SessionStats :=
  acts.foldl applyStayAct st

/-- `_followLinks(depth)`: stop at `maxDepth` or when link-clicking is
disabled or the `Random.bool(0.3/depth)` draw says no; otherwise one more
`stayOnPage` (counted in `pagesViewed`), recursing while it navigates away.
Returns the number of `pagesViewed` increments together with the error of a
throwing stay, if any (increments made before the throw persist). -/
def followLinks (maxDepth : ℕ) (clickLinks : Bool)
    (fenv : ℕ → Bool × Except String StayResult) : ℕ → ℕ → ℕ × Option String
  | _, 0 => (0, none)
  | depth, fuel + 1 =>
    if maxDepth ≤ depth then (0, none)
    else if ¬ clickLinks then (0, none)
    else if ¬ (fenv depth).1 then (0, none)
    else
      match (fenv depth).2 with
      | .error e => (0, some e)
      | .ok st =>
        if st.navigatedAway then
          let deeper := followLinks maxDepth clickLinks fenv (depth + 1) fuel
          (1 + deeper.1, deeper.2)
        else (1, none)

/-- The `catch` block of `_visitSite`: `sitesFailed++`, push a `visit` error,
emit `siteFailed`. -/
def failVisit (url msg : String) (s : Session) : Session :=
  { s with
    stats := { s.stats with
      sitesFailed := s.stats.sitesFailed + 1
      errors := s.stats.errors ++ [⟨"visit", some url, msg⟩] }
    events := s.events ++ [.siteFailed url] }

/-- The success tail of `_visitSite`: `sitesSuccessful++`, emit `siteComplete`. -/
def completeVisit (url : String) (s : Session) : Session :=
  { s with
    stats := { s.stats with sitesSuccessful := s.stats.sitesSuccessful + 1 }
    events := s.events ++ [.siteComplete url] }

/-- `SessionManager._visitSite(url, …)` (`src/core/session.js` lines 268-355).
`sitesVisited++` and `siteStart` happen before the `try`; a successful `goto`
fires the `navigated` handler (relayed as `pageVisited`) and bumps
`pagesViewed`/`visitedUrls`; `dismissPopups` catches internally (no visible
effect); a detected captcha bumps `sitesFailed`, emits `captchaDetected` and
returns; otherwise the stay result is folded into the stats, `_followLinks`
may add pages, and the visit completes.  A `goto` failure first fires the
`navigationFailed` handler (which pushes a `navigation` error entry); any
thrown error lands in the `catch` block. -/
def visitSite (cfg : Config) (env : VisitEnv) (url : String) (s : Session) : Session :=
  let s0 : Session := { s with
    stats := { s.stats with sitesVisited := s.stats.sitesVisited + 1 }
    events := s.events ++ [.siteStart url] }
  match env.gotoR with
  | .error e =>
    failVisit url e
      { s0 with stats := { s0.stats with
          errors := s0.stats.errors ++ [⟨"navigation", some url, e⟩] } }
  | .ok _ =>
    let s1 : Session := { s0 with
      events := s0.events ++ [.pageVisited url]
      stats := { s0.stats with
        pagesViewed := s0.stats.pagesViewed + 1
        visitedUrls := s0.stats.visitedUrls ++ [url] } }
    if env.captcha then
      { s1 with
        stats := { s1.stats with sitesFailed := s1.stats.sitesFailed + 1 }
        events := s1.events ++ [.captchaDetected url] }
    else
      match env.stayR with
      | .error e => failVisit url e s1
      | .ok stay =>
        let s2 : Session := { s1 with stats := applyStayActs stay.actions s1.stats }
        if stay.navigatedAway then
          let s3 : Session := { s2 with
            stats := { s2.stats with pagesViewed := s2.stats.pagesViewed + 1 } }
          let f := followLinks cfg.maxDepth cfg.clickLinks env.follow 1 cfg.maxDepth
          let s4 : Session := { s3 with
            stats := { s3.stats with pagesViewed := s3.stats.pagesViewed + f.1 } }
          match f.2 with
          | some e => failVisit url e s4
          | none => completeVisit url s4
        else completeVisit url s2

/-- The loop of `_visitSites`: per site, check the cooperative stop flag, the
`maxPages` and `maxDuration` limits (breaking ends the session normally), the
scheduled-break heuristic (`breaksDue > breaksTaken`), then visit.  `elapsed i`
is the oracle for the minutes elapsed when site `i` is reached; `envs i` is
the visit oracle for site `i`.  Inter-site waits are unobservable sleeps. -/
def visitSitesAux (cfg : Config) (elapsed : ℕ → ℚ) (envs : ℕ → VisitEnv) :
    List String → ℕ → Session → Session
  | [], _, s => s
  | url :: rest, i, s =>
    if s.shouldStop then s
    else if 0 < cfg.maxPages ∧ cfg.maxPages ≤ s.stats.pagesViewed then s
    else if 0 < cfg.maxDuration ∧ cfg.maxDuration ≤ elapsed i then s
    else
      let s1 :=
        if 0 < cfg.breakInterval ∧
            ((s.stats.sitesVisited / 10 : ℕ) : ℤ) < ⌊elapsed i / cfg.breakInterval⌋ ∧
            0 < s.stats.sitesVisited
        then { s with events := s.events ++ [.breakStart, .breakEnd] }
        else s
      visitSitesAux cfg elapsed envs rest (i + 1) (visitSite cfg (envs i) url s1)

/-- What the state dispatch at the top of `SessionManager.start()` decides
(`src/core/session.js` lines 123-129): the outer guard admits `idle` and
`starting` directly; inside the guard, `idle` would call `initialize()` and
any other state throws. -/
inductive StartDispatch where
  | proceed
  | callInitialize
  | throwBadState
  deriving Repr, DecidableEq

def startDispatch (st : SessionState) : StartDispatch :=
  if st ≠ SessionState.starting ∧ st ≠ SessionState.idle then
    if st = SessionState.idle then .callInitialize else .throwBadState
  else .proceed

def stateName : SessionState → String
  | .idle => "idle"
  | .starting => "starting"
  | .running => "running"
  | .paused => "paused"
  | .stopping => "stopping"
  | .stopped => "stopped"
  | .error => "error"

/-- The body of `start()` after the state dispatch: build the site queue with
`Sites.getSites` (this assignment mutates `_siteQueue` before the emptiness
check), throw on an empty queue, otherwise enter `running`, stamp
`startTime`, emit `stateChange`/`started`, run the optional search warm-ups
(an oracle: external search round-trips), visit the queue, then stamp
`endTime`, enter `stopped` and emit `stateChange`/`completed`. -/
def startBody (data : SitesData) (cfg : Config) (shuffleDraw : ℕ → ℚ)
    (now0 : ℕ) (elapsed : ℕ → ℚ) (envs : ℕ → VisitEnv)
    (searchesModel : Session → Session) (endT : ℕ) (s : Session) :
    Session × Option String :=
  let queue := getSites data cfg.categories
    ⟨cfg.custom, cfg.exclude, cfg.maxSites, cfg.shuffleSites⟩ shuffleDraw
  let s1 := { s with siteQueue := queue }
  if queue.length = 0 then (s1, some "No sites to visit. Check your configuration.")
  else
    let s2 := { s1 with
      state := SessionState.running
      stats := { s1.stats with startTime := some now0 }
      events := s1.events ++ [.stateChange .running, .started queue.length] }
    let s3 := if cfg.searches ∧ 0 < cfg.searchCount then searchesModel s2 else s2
    let s4 := visitSitesAux cfg elapsed envs queue 0 s3
    ({ s4 with
      stats := { s4.stats with endTime := some endT }
      state := SessionState.stopped
      events := s4.events ++ [.stateChange .stopped, .completed] }, none)

/-- `SessionManager.start()`.  `init` is the oracle for the (externally
heavy) `initialize()` routine, invoked only on the dispatch's
`callInitialize` branch; its error, if any, propagates. -/
def startModel (init : Session → Session × Option String) (data : SitesData)
    (cfg : Config) (shuffleDraw : ℕ → ℚ) (now0 : ℕ) (elapsed : ℕ → ℚ)
    (envs : ℕ → VisitEnv) (searchesModel : Session → Session) (endT : ℕ)
    (s : Session) : Session × Option String :=
  if s.state ≠ SessionState.starting ∧ s.state ≠ SessionState.idle then
    if s.state = SessionState.idle then
      match init s with
      | (s', none) => startBody data cfg shuffleDraw now0 elapsed envs searchesModel endT s'
      | (s', some e) => (s', some e)
    else (s, some ("Cannot start session in state: " ++ stateName s.state))
  else startBody data cfg shuffleDraw now0 elapsed envs searchesModel endT s

/-- Classifier for the three events that can end a visit. -/
def isTerminalEv : Event → Bool
  | .siteComplete _ => true
  | .siteFailed _ => true
  | .captchaDetected _ => true
  | _ => false

def isSiteCompleteEv : Event → Bool
  | .siteComplete _ => true
  | _ => false

def isSiteFailedEv : Event → Bool
  | .siteFailed _ => true
  | _ => false

def isCaptchaEv : Event → Bool
  | .captchaDetected _ => true
  | _ => false

def countEv (p : Event → Bool) (l : List Event) : ℕ := (l.filter p).length

/-! ### Concrete scenario material -/

/-- A visit whose external calls all succeed and whose stay does not navigate
away. -/
def envOk : VisitEnv :=
  ⟨.ok 200, false, .ok ⟨[], false⟩, fun _ => (false, .ok ⟨[], false⟩)⟩

/-- A visit where navigation succeeded but a captcha is detected. -/
def envCaptcha : VisitEnv :=
  ⟨.ok 200, true, .ok ⟨[], false⟩, fun _ => (false, .ok ⟨[], false⟩)⟩

/-- A minimal configuration: one category, no searches, no limits, no breaks,
shuffling disabled. -/
def cfgPlain : Config :=
  ⟨["x"], none, none, none, some false, false, 0, 0, 0, 0, 3, false⟩

/-- A page that never responds: every attempt of `goto` throws. -/
def navAlwaysFail (e : String) : ℕ → Except String ℕ := fun _ => .error e

/-- Sites file with a single category holding two destinations. -/
def dataTwoSites : SitesData :=
  ⟨[("x", ["https://a.example", "https://b.example"])], none⟩

/-- Visit oracles for the two-destination scenario: the first site's
navigation is the (failing) outcome of the full `goto` retry loop, the second
site succeeds. -/
def envsTwoSites (e : String) : ℕ → VisitEnv :=
  fun i =>
    if i = 0 then
      ⟨(gotoModel (navAlwaysFail e) 3).1, false, .ok ⟨[], false⟩,
        fun _ => (false, .ok ⟨[], false⟩)⟩
    else envOk

/-- Running `start()` on a fresh session over the two-destination scenario. -/
def scenarioTwoSites (e : String) : Session × Option String :=
  startModel (fun s => (s, none)) dataTwoSites cfgPlain (fun _ => 0) 0
    (fun _ => 0) (envsTwoSites e) id 7 initialSession

/-! ## Control protocol: `WebSocketHandler._handleCommand` (`src/index.js` lines 1224-1320)

Each command builds a `response` message (`success:false, data:null`
initially); the `try` body fills it in and any thrown error is caught and
recorded as `response.error` — the handler always answers with a structured
`response`, never a protocol-level failure.  Session-dependent commands throw
`'No session attached'` when no session is wired in; `status`, `config` and
`list_clients` never touch the session (beyond an optional-chained state
read). -/

inductive Cmd where
  | start
  | stop
  | pause
  | resume
  | status
  | stats
  | config
  | screenshot
  | goto
  | list_clients
  | unknown (name : String)
  deriving Repr, DecidableEq

/-- Oracle for the attached session's behavior as seen by the handler. -/
structure SIface where
  state : SessionState
  initR : Except String Unit
  stopR : Except String Unit
  pauseR : Bool
  resumeR : Bool
  screenshotR : Except String String
  gotoUrl : String → Except String Unit

/-- The `response` message sent back (`type:"response"` envelope; `data`
records whether a payload was attached, `error` the caught message). -/
structure Response where
  command : Cmd
  requestId : Option String
  success : Bool
  hasData : Bool
  error : Option String
  deriving Repr, DecidableEq

/-- The caught-error outcome: `success:false`, `data` still `null`,
`error` set to the thrown message. -/
def respErr (cmd : Cmd) (rid : Option String) (msg : String) : Response :=
  ⟨cmd, rid, false, false, some msg⟩

def respOk (cmd : Cmd) (rid : Option String) : Response :=
  ⟨cmd, rid, true, true, none⟩

/-- `WebSocketHandler._handleCommand(client, command, data, requestId)`. -/
def handleCommand (sess : Option SIface) (cmd : Cmd) (dataUrl : Option String)
    (rid : Option String) : Response :=
  match cmd with
  | .start =>
    match sess with
    | none => respErr .start rid "No session attached"
    | some si =>
      match si.initR with
      | .error e => respErr .start rid e
      | .ok _ => respOk .start rid
  | .stop =>
    match sess with
    | none => respErr .stop rid "No session attached"
    | some si =>
      match si.stopR with
      | .error e => respErr .stop rid e
      | .ok _ => respOk .stop rid
  | .pause =>
    match sess with
    | none => respErr .pause rid "No session attached"
    | some si => ⟨.pause, rid, si.pauseR, true, none⟩
  | .resume =>
    match sess with
    | none => respErr .resume rid "No session attached"
    | some si => ⟨.resume, rid, si.resumeR, true, none⟩
  | .status => respOk .status rid
  | .stats =>
    match sess with
    | none => respErr .stats rid "No session attached"
    | some _ => respOk .stats rid
  | .config => respOk .config rid
  | .screenshot =>
    match sess with
    | none => respErr .screenshot rid "No session attached"
    | some si =>
      match si.screenshotR with
      | .error e => respErr .screenshot rid e
      | .ok _ => respOk .screenshot rid
  | .goto =>
    match sess with
    | none => respErr .goto rid "No session attached"
    | some si =>
      match dataUrl with
      | none => respErr .goto rid "URL required"
      | some u =>
        match si.gotoUrl u with
        | .error e => respErr .goto rid e
        | .ok _ => respOk .goto rid
  | .list_clients => respOk .list_clients rid
  | .unknown n => respErr (.unknown n) rid ("Unknown command: " ++ n)

/-! ## Theorems -/

/-! ### C3: determinism and range of the seeded source -/

theorem m32_lt (n : ℕ) : m32 n < 4294967296 :=
  Nat.mod_lt _ (by norm_num)

theorem shiftRight_lt {x n : ℕ} (h : x < n) (k : ℕ) : x >>> k < n :=
  lt_of_le_of_lt (by simpa [Nat.shiftRight_eq_div_pow] using Nat.div_le_self x (2 ^ k)) h

theorem mulberryOut_lt (s : ℕ) : mulberryOut s < 4294967296 := by
  unfold mulberryOut
  have h32 : (4294967296 : ℕ) = 2 ^ 32 := by norm_num
  have ht1 : m32 ((s ^^^ s >>> 15) * (s ||| 1)) < 2 ^ 32 := h32 ▸ m32_lt _
  have ht2 : m32 (m32 ((s ^^^ s >>> 15) * (s ||| 1)) +
      m32 ((m32 ((s ^^^ s >>> 15) * (s ||| 1)) ^^^ m32 ((s ^^^ s >>> 15) * (s ||| 1)) >>> 7) *
        (m32 ((s ^^^ s >>> 15) * (s ||| 1)) ||| 61))) < 2 ^ 32 := h32 ▸ m32_lt _
  rw [h32]
  exact Nat.xor_lt_two_pow (Nat.xor_lt_two_pow ht2 ht1)
    (shiftRight_lt (Nat.xor_lt_two_pow ht2 ht1) 14)

theorem next_fst_nonneg (r : SeededRandom) : 0 ≤ r.next.1 := by
  unfold SeededRandom.next
  positivity

theorem next_fst_lt_one (r : SeededRandom) : r.next.1 < 1 := by
  unfold SeededRandom.next
  rw [div_lt_one (by norm_num)]
  exact_mod_cast mulberryOut_lt (mulberryStep r.state)

theorem run_congr (n : ℕ) :
    ∀ r₁ r₂ : SeededRandom, r₁.state = r₂.state → r₁.run n = r₂.run n := by
  induction n with
  | zero => intro r₁ r₂ _; rfl
  | succ n ih =>
    intro r₁ r₂ h
    simp only [SeededRandom.run, SeededRandom.next, h]
    exact congrArg _ (ih _ _ rfl)

theorem run_mem_unit (n : ℕ) :
    ∀ r : SeededRandom, ∀ q ∈ r.run n, 0 ≤ q ∧ q < 1 := by
  induction n with
  | zero => intro r q hq; simp [SeededRandom.run] at hq
  | succ n ih =>
    intro r q hq
    simp only [SeededRandom.run, List.mem_cons] at hq
    rcases hq with h | h
    · exact h ▸ ⟨next_fst_nonneg r, next_fst_lt_one r⟩
    · exact ih _ q h

/-- C3: two `SeededRandom` instances with the same internal state (in
particular, two instances freshly constructed from the same seed) produce
identical sequences of `next()` outputs, and every output lies in `[0, 1)`. -/
theorem seededRandom_deterministic_and_unit
    (r₁ r₂ : SeededRandom) (n : ℕ) (h : r₁.state = r₂.state) :
    r₁.run n = r₂.run n ∧ ∀ q ∈ r₁.run n, 0 ≤ q ∧ q < 1 :=
  ⟨run_congr n r₁ r₂ h, run_mem_unit n r₁⟩

/-- Witness for C3: the two instances built from seed `42` (the `seed` field
plays no role in generation) agree on their first three draws, all in `[0,1)`. -/
theorem seededRandom_deterministic_and_unit_witness :
    (SeededRandom.init 42).run 3 = (⟨7, 42⟩ : SeededRandom).run 3 ∧
      ∀ q ∈ (SeededRandom.init 42).run 3, 0 ≤ q ∧ q < 1 :=
  seededRandom_deterministic_and_unit (SeededRandom.init 42) ⟨7, 42⟩ 3 rfl

/-! ### C7: the scroll-pattern generator -/

theorem scrollStep_length_le (vh ms y : ℚ) (r : Rng) :
    (scrollStep vh ms y r).1.length ≤ 2 := by
  unfold scrollStep
  dsimp only
  split_ifs <;> simp

theorem scrollStep_toTop (vh ms y : ℚ) (r : Rng) :
    ∀ a ∈ (scrollStep vh ms y r).1, a.kind = ScrollKind.scrollToTop →
      vh < a.fromY ∧ a.toY = 0 := by
  unfold scrollStep
  dsimp only
  split_ifs with h1 h2 h3 h4 <;> intro a ha <;>
    simp only [List.mem_append, List.mem_singleton, List.mem_cons,
      List.not_mem_nil, or_false, false_or] at ha <;>
    rcases ha with ha | ha <;>
    subst_eqs <;> simp_all

theorem scrollLoop_length_le (vh ms : ℚ) (n : ℕ) :
    ∀ y r, (scrollLoop vh ms n y r).length ≤ 2 * n := by
  induction n with
  | zero => intro y r; simp [scrollLoop]
  | succ n ih =>
    intro y r
    simp only [scrollLoop, List.length_append]
    have h1 := scrollStep_length_le vh ms y r
    have h2 := ih (scrollStep vh ms y r).2.1 (scrollStep vh ms y r).2.2
    omega

theorem scrollLoop_toTop (vh ms : ℚ) (n : ℕ) :
    ∀ y r, ∀ a ∈ scrollLoop vh ms n y r, a.kind = ScrollKind.scrollToTop →
      vh < a.fromY ∧ a.toY = 0 := by
  induction n with
  | zero => intro y r a ha; simp [scrollLoop] at ha
  | succ n ih =>
    intro y r a ha
    simp only [scrollLoop, List.mem_append] at ha
    rcases ha with ha | ha
    · exact scrollStep_toTop vh ms y r a ha
    · exact ih _ _ a ha

theorem randInt_bounds (lo hi : ℤ) (r : Rng) (hlo : lo ≤ hi)
    (h0 : 0 ≤ r.stream r.pos) (h1 : r.stream r.pos < 1) :
    lo ≤ (randInt lo hi r).1 ∧ (randInt lo hi r).1 ≤ hi := by
  unfold randInt Rng.next
  dsimp only
  have hpos : (0 : ℚ) < (hi : ℚ) - (lo : ℚ) + 1 := by
    have : (lo : ℚ) ≤ (hi : ℚ) := by exact_mod_cast hlo
    linarith
  constructor
  · have : (0 : ℤ) ≤ ⌊r.stream r.pos * ((hi : ℚ) - (lo : ℚ) + 1)⌋ :=
      Int.floor_nonneg.mpr (mul_nonneg h0 hpos.le)
    omega
  · have hlt : r.stream r.pos * ((hi : ℚ) - (lo : ℚ) + 1) < (hi : ℚ) - (lo : ℚ) + 1 := by
      nlinarith
    have : ⌊r.stream r.pos * ((hi : ℚ) - (lo : ℚ) + 1)⌋ < hi - lo + 1 := by
      apply Int.floor_lt.mpr
      push_cast
      linarith
    omega

/-- C7 (amended): for every page height, viewport height, and random source
with draws in `[0,1)`, `Behavior.scrollPattern` chooses a target count of 3-12
loop iterations, but the emitted list holds between 0 and 24 actions: a scroll
whose clamped offset does not move is skipped, and an extra scroll-to-top
action (emitted only once the current offset exceeds the viewport height, and
always returning to offset 0) can double an iteration's output.  The
spec's "3-12 scroll actions" bound on the emitted list does not hold. -/
theorem scrollPattern_bounded (ph vh : ℚ) (r : Rng)
    (h : ∀ k, 0 ≤ r.stream k ∧ r.stream k < 1) :
    (scrollPattern ph vh r).length ≤ 24 ∧
      ∀ a ∈ scrollPattern ph vh r, a.kind = ScrollKind.scrollToTop →
        vh < a.fromY ∧ a.toY = 0 := by
  have hcnt : (randInt 3 12 r).1 ≤ 12 :=
    (randInt_bounds 3 12 r (by norm_num) (h r.pos).1 (h r.pos).2).2
  have hlen := scrollLoop_length_le vh (ph - vh) (randInt 3 12 r).1.toNat 0 (randInt 3 12 r).2
  refine ⟨?_, ?_⟩
  · have htn : (randInt 3 12 r).1.toNat ≤ 12 := by omega
    calc (scrollPattern ph vh r).length ≤ 2 * (randInt 3 12 r).1.toNat := hlen
    _ ≤ 24 := by omega
  · exact scrollLoop_toTop vh (ph - vh) _ 0 _

/-- Witness for C7's amended theorem at concrete inputs (page 500, viewport
100, constant stream 1/2). -/
theorem scrollPattern_bounded_witness :
    (scrollPattern 500 100 ⟨fun _ => 1/2, 0⟩).length ≤ 24 ∧
      ∀ a ∈ scrollPattern 500 100 ⟨fun _ => 1/2, 0⟩,
        a.kind = ScrollKind.scrollToTop → (100 : ℚ) < a.fromY ∧ a.toY = 0 :=
  scrollPattern_bounded 500 100 ⟨fun _ => 1/2, 0⟩ (fun k => by norm_num)

/-- C7 counterexample: with page height equal to viewport height (no scrollable
room) every scroll is clamped to offset 0 and skipped, so the generator emits
0 actions — outside the claimed 3-12 range. -/
theorem scrollPattern_count_counterexample :
    (scrollPattern 1000 1000 ⟨fun _ => 0, 0⟩).length = 0 ∧
      ¬(3 ≤ (scrollPattern 1000 1000 ⟨fun _ => 0, 0⟩).length ∧
        (scrollPattern 1000 1000 ⟨fun _ => 0, 0⟩).length ≤ 12) := by
  have h : (scrollPattern 1000 1000 ⟨fun _ => 0, 0⟩).length = 0 := by
    norm_num [scrollPattern, scrollLoop, scrollStep, randInt, randBool, scrollPause, Rng.next]
  exact ⟨h, by omega⟩

/-! ### C4: the bounded gaussian -/

theorem gaussian_sd_zero (mean : ℝ) (fuel : ℕ) (r : RngR) :
    (gaussian mean 0 fuel r).1 = mean := by
  simp [gaussian]

theorem gbLoop_sd_zero (mean lo hi : ℝ) (fuel : ℕ) (hlo : lo ≤ mean) (hhi : mean ≤ hi) :
    ∀ n r, (gbLoop mean 0 lo hi fuel n r).1 = mean := by
  intro n
  induction n with
  | zero => intro r; exact gaussian_sd_zero mean fuel r
  | succ n ih =>
    intro r
    simp only [gbLoop]
    rw [if_neg]
    · exact gaussian_sd_zero mean fuel r
    · rw [gaussian_sd_zero mean fuel r]
      push_neg
      exact ⟨hlo, hhi⟩

/-- C4 (amended): whenever `min ≤ max`, `Distribution.gaussianBounded` returns
a value inside `[min, max]` for every mean, standard deviation, and random
source (the final hard clamp guarantees this regardless of the rejection
loop); and with `sd = 0` and `mean ∈ [min, max]` the result is exactly `mean`.
The original "for any inputs" fails when `min > max` (see the
counterexample). -/
theorem gaussianBounded_in_bounds (mean sd lo hi : ℝ) (fuel : ℕ) (r : RngR)
    (h : lo ≤ hi) :
    gaussianBounded mean sd lo hi fuel r ∈ Set.Icc lo hi ∧
      (sd = 0 → lo ≤ mean → mean ≤ hi →
        gaussianBounded mean sd lo hi fuel r = mean) := by
  constructor
  · exact ⟨le_max_left _ _, max_le h (min_le_left _ _)⟩
  · intro hsd hlo hhi
    subst hsd
    unfold gaussianBounded
    rw [gbLoop_sd_zero mean lo hi fuel hlo hhi, min_eq_right hhi, max_eq_right hlo]

/-- Witness for C4's amended theorem: mean 1, sd 0, bounds [0, 2], a constant
stream of 1/2. -/
theorem gaussianBounded_in_bounds_witness :
    gaussianBounded 1 0 0 2 0 ⟨fun _ => 1/2, 0⟩ ∈ Set.Icc (0:ℝ) 2 ∧
      ((0:ℝ) = 0 → (0:ℝ) ≤ 1 → (1:ℝ) ≤ 2 →
        gaussianBounded 1 0 0 2 0 ⟨fun _ => 1/2, 0⟩ = 1) :=
  gaussianBounded_in_bounds 1 0 0 2 0 ⟨fun _ => 1/2, 0⟩ (by norm_num)

/-- C4 counterexample: with inverted bounds min = 1 > max = 0, the final clamp
`Math.max(min, Math.min(max, value))` returns `min = 1`, which is not in the
(empty) interval `[1, 0]` — so "always returns a value in [min, max] for any
inputs" fails as stated. -/
theorem gaussianBounded_counterexample :
    gaussianBounded 0 1 1 0 0 ⟨fun _ => 1/2, 0⟩ = 1 ∧
      gaussianBounded 0 1 1 0 0 ⟨fun _ => 1/2, 0⟩ ∉ Set.Icc (1:ℝ) 0 := by
  have h : gaussianBounded 0 1 1 0 0 ⟨fun _ => 1/2, 0⟩ = 1 := by
    unfold gaussianBounded
    exact max_eq_left (le_trans (min_le_left _ _) zero_le_one)
  refine ⟨h, ?_⟩
  rw [h]
  norm_num [Set.mem_Icc]

/-! ### C5: the site queue builder -/

theorem setDedupAux_spec :
    ∀ (l seen : List String),
      (setDedupAux seen l).Nodup ∧ ∀ x ∈ setDedupAux seen l, x ∉ seen := by
  intro l
  induction l with
  | nil => intro seen; simp [setDedupAux]
  | cons x xs ih =>
    intro seen
    simp only [setDedupAux]
    by_cases hx : x ∈ seen
    · simpa [hx] using ih seen
    · rw [if_neg hx]
      obtain ⟨hnd, hmem⟩ := ih (x :: seen)
      refine ⟨List.nodup_cons.mpr ⟨fun hc => (hmem x hc) (List.mem_cons_self x seen), hnd⟩, ?_⟩
      intro y hy
      rcases List.mem_cons.mp hy with rfl | hy'
      · exact hx
      · exact fun hseen => (hmem y hy') (List.mem_cons_of_mem x hseen)

theorem setDedup_nodup (l : List String) : (setDedup l).Nodup :=
  (setDedupAux_spec l []).1

/-- Swapping the head with position `j` of the tail is a permutation. -/
theorem headSwap_perm (d x : String) :
    ∀ (xs : List String) (j : ℕ), j < xs.length →
      (xs.getD j d :: xs.set j x).Perm (x :: xs) := by
  intro xs
  induction xs with
  | nil => intro j h; simp at h
  | cons y ys ih =>
    intro j hj
    cases j with
    | zero => simpa using List.Perm.swap x y ys
    | succ j' =>
      simp only [List.getD_cons_succ, List.set_cons_succ]
      exact ((List.Perm.swap y (ys.getD j' d) (ys.set j' x)).trans
        ((ih j' (by simpa using hj)).cons y)).trans (List.Perm.swap x y ys)

/-- `[result[i], result[j]] = [result[j], result[i]]` is a permutation
(for in-range indices). -/
theorem swapCore_perm :
    ∀ (l : List String) (i j : ℕ), i < l.length → j < l.length →
      ((l.set i (l.getD j "")).set j (l.getD i "")).Perm l := by
  intro l
  induction l with
  | nil => intro i j hi _; simp at hi
  | cons x xs ih =>
    intro i j hi hj
    cases i with
    | zero =>
      cases j with
      | zero => simp
      | succ j' =>
        simp only [List.getD_cons_zero, List.getD_cons_succ,
          List.set_cons_zero, List.set_cons_succ]
        exact headSwap_perm "" x xs j' (by simpa using hj)
    | succ i' =>
      cases j with
      | zero =>
        simp only [List.getD_cons_zero, List.getD_cons_succ,
          List.set_cons_zero, List.set_cons_succ]
        exact headSwap_perm "" x xs i' (by simpa using hi)
      | succ j' =>
        simp only [List.getD_cons_succ, List.set_cons_succ]
        exact (ih i' j' (by simpa using hi) (by simpa using hj)).cons x

theorem lswap_perm (l : List String) (i j : ℕ) : (lswap l i j).Perm l := by
  unfold lswap
  split_ifs with h
  · exact swapCore_perm l i j h.1 h.2
  · exact List.Perm.refl l

theorem fyAux_perm (draw : ℕ → ℚ) :
    ∀ (i k : ℕ) (l : List String), (fyAux draw k i l).Perm l := by
  intro i
  induction i with
  | zero => intro k l; exact List.Perm.refl l
  | succ i ih =>
    intro k l
    exact (ih (k + 1) _).trans (lswap_perm l (i + 1) _)

theorem shuffle_perm (draw : ℕ → ℚ) (l : List String) : (shuffle draw l).Perm l :=
  fyAux_perm draw (l.length - 1) 0 l

theorem dedupedSites_nodup (data : SitesData) (categories : List String)
    (opts : SiteOptions) : (dedupedSites data categories opts).Nodup := by
  unfold dedupedSites
  cases data.excludePatterns with
  | none => exact setDedup_nodup _
  | some pats => exact (setDedup_nodup _).filter _

/-- C5: for every loaded configuration and every positive `maxSites`, the
site queue built by `getSites` has no duplicate entries (a URL listed in two
selected categories, or twice in one, survives as a single entry) and has
length at most `maxSites`. -/
theorem getSites_nodup_and_capped (data : SitesData) (categories : List String)
    (opts : SiteOptions) (draw : ℕ → ℚ) (m : ℤ)
    (hm : opts.maxSites = some m) (hpos : 0 < m) :
    (getSites data categories opts draw).Nodup ∧
      ((getSites data categories opts draw).length : ℤ) ≤ m := by
  have hnd : (dedupedSites data categories opts).Nodup :=
    dedupedSites_nodup data categories opts
  have hnd5 : (if opts.shuffle ≠ some false
      then shuffle draw (dedupedSites data categories opts)
      else dedupedSites data categories opts).Nodup := by
    split_ifs with h
    · exact ((shuffle_perm draw _).symm).nodup hnd
    · exact hnd
  unfold getSites
  rw [hm]
  simp only [if_pos hpos]
  constructor
  · exact (List.take_sublist _ _).nodup hnd5
  · have := List.length_take_le m.toNat
      (if opts.shuffle ≠ some false
        then shuffle draw (dedupedSites data categories opts)
        else dedupedSites data categories opts)
    omega

/-- Witness for C5: two categories sharing the URL `"b"` and duplicating
`"a"`, `maxSites = 2`, shuffle disabled. -/
theorem getSites_nodup_and_capped_witness :
    (getSites ⟨[("news", ["a", "b", "a"]), ("tech", ["b", "c"])], none⟩
        ["news", "tech"] ⟨none, none, some 2, some false⟩ (fun _ => 0)).Nodup ∧
      ((getSites ⟨[("news", ["a", "b", "a"]), ("tech", ["b", "c"])], none⟩
        ["news", "tech"] ⟨none, none, some 2, some false⟩ (fun _ => 0)).length : ℤ) ≤ 2 :=
  getSites_nodup_and_capped _ _ _ _ 2 rfl (by norm_num)

/-! ### C9: per-visit statistics accounting -/

theorem applyStayAct_counters (st : SessionStats) (a : StayAct) :
    (applyStayAct st a).sitesVisited = st.sitesVisited ∧
      (applyStayAct st a).sitesSuccessful = st.sitesSuccessful ∧
      (applyStayAct st a).sitesFailed = st.sitesFailed := by
  cases a <;> simp only [applyStayAct] <;> first | (split_ifs <;> simp) | simp

theorem applyStayActs_counters (acts : List StayAct) :
    ∀ st : SessionStats,
      (applyStayActs acts st).sitesVisited = st.sitesVisited ∧
      (applyStayActs acts st).sitesSuccessful = st.sitesSuccessful ∧
      (applyStayActs acts st).sitesFailed = st.sitesFailed := by
  induction acts with
  | nil => intro st; simp [applyStayActs]
  | cons a acts ih =>
    intro st
    have h1 : applyStayActs (a :: acts) st = applyStayActs acts (applyStayAct st a) := rfl
    rw [h1]
    obtain ⟨hv, hs, hf⟩ := ih (applyStayAct st a)
    obtain ⟨hv2, hs2, hf2⟩ := applyStayAct_counters st a
    exact ⟨hv.trans hv2, hs.trans hs2, hf.trans hf2⟩

theorem visitSite_stats (cfg : Config) (env : VisitEnv) (url : String) (s : Session) :
    (visitSite cfg env url s).stats.sitesVisited = s.stats.sitesVisited + 1 ∧
      ((visitSite cfg env url s).stats.sitesSuccessful = s.stats.sitesSuccessful + 1 ∧
        (visitSite cfg env url s).stats.sitesFailed = s.stats.sitesFailed ∨
       (visitSite cfg env url s).stats.sitesSuccessful = s.stats.sitesSuccessful ∧
        (visitSite cfg env url s).stats.sitesFailed = s.stats.sitesFailed + 1) := by
  unfold visitSite
  cases hg : env.gotoR with
  | error e => simp [failVisit]
  | ok v =>
    dsimp only
    split_ifs with hc
    · simp
    · cases hs : env.stayR with
      | error e => simp [failVisit]
      | ok stay =>
        dsimp only
        obtain ⟨hv, hsu, hf⟩ := applyStayActs_counters stay.actions
          { s.stats with
            sitesVisited := s.stats.sitesVisited + 1
            pagesViewed := s.stats.pagesViewed + 1
            visitedUrls := s.stats.visitedUrls ++ [url] }
        split_ifs with hnav
        · cases hfol : (followLinks cfg.maxDepth cfg.clickLinks env.follow 1 cfg.maxDepth).2 with
          | none => simp [completeVisit, hv, hsu, hf]
          | some e => simp [failVisit, hv, hsu, hf]
        · simp [completeVisit, hv, hsu, hf]

/-- C9: every `_visitSite` call increments `sitesVisited` by exactly one and
exactly one of `sitesSuccessful`/`sitesFailed` by one (a captcha or a thrown
error counts as failed, a completed stay as successful), so the invariant
`sitesVisited = sitesSuccessful + sitesFailed` is preserved across every
visit — keeping the `successRate` denominator consistent. -/
theorem visitSite_counts_invariant (cfg : Config) (env : VisitEnv) (url : String)
    (s : Session) :
    (visitSite cfg env url s).stats.sitesVisited = s.stats.sitesVisited + 1 ∧
      ((visitSite cfg env url s).stats.sitesSuccessful = s.stats.sitesSuccessful + 1 ∧
        (visitSite cfg env url s).stats.sitesFailed = s.stats.sitesFailed ∨
       (visitSite cfg env url s).stats.sitesSuccessful = s.stats.sitesSuccessful ∧
        (visitSite cfg env url s).stats.sitesFailed = s.stats.sitesFailed + 1) ∧
      (s.stats.sitesVisited = s.stats.sitesSuccessful + s.stats.sitesFailed →
        (visitSite cfg env url s).stats.sitesVisited =
          (visitSite cfg env url s).stats.sitesSuccessful +
            (visitSite cfg env url s).stats.sitesFailed) := by
  obtain ⟨h1, h2⟩ := visitSite_stats cfg env url s
  refine ⟨h1, h2, fun hd => ?_⟩
  rcases h2 with ⟨ha, hb⟩ | ⟨ha, hb⟩ <;> omega

/-- Witness for C9 at a concrete, fully successful visit. -/
theorem visitSite_counts_invariant_witness :
    (visitSite cfgPlain envOk "u" initialSession).stats.sitesVisited
        = initialSession.stats.sitesVisited + 1 ∧
      ((visitSite cfgPlain envOk "u" initialSession).stats.sitesSuccessful
          = initialSession.stats.sitesSuccessful + 1 ∧
        (visitSite cfgPlain envOk "u" initialSession).stats.sitesFailed
          = initialSession.stats.sitesFailed ∨
       (visitSite cfgPlain envOk "u" initialSession).stats.sitesSuccessful
          = initialSession.stats.sitesSuccessful ∧
        (visitSite cfgPlain envOk "u" initialSession).stats.sitesFailed
          = initialSession.stats.sitesFailed + 1) ∧
      (initialSession.stats.sitesVisited
          = initialSession.stats.sitesSuccessful + initialSession.stats.sitesFailed →
        (visitSite cfgPlain envOk "u" initialSession).stats.sitesVisited =
          (visitSite cfgPlain envOk "u" initialSession).stats.sitesSuccessful +
            (visitSite cfgPlain envOk "u" initialSession).stats.sitesFailed) :=
  visitSite_counts_invariant cfgPlain envOk "u" initialSession

/-! ### C1: captcha handling and the visit-terminating events -/

theorem countEv_append (p : Event → Bool) (l1 l2 : List Event) :
    countEv p (l1 ++ l2) = countEv p l1 + countEv p l2 := by
  simp [countEv, List.filter_append]

theorem visitSite_emits_one_terminal (cfg : Config) (env : VisitEnv) (url : String)
    (s : Session) :
    countEv isTerminalEv (visitSite cfg env url s).events
        = countEv isTerminalEv s.events + 1 := by
  unfold visitSite
  cases hg : env.gotoR with
  | error e => simp [failVisit, countEv_append, countEv, isTerminalEv]
  | ok v =>
    dsimp only
    split_ifs with hc
    · simp [countEv_append, countEv, isTerminalEv]
    · cases hs : env.stayR with
      | error e => simp [failVisit, countEv_append, countEv, isTerminalEv]
      | ok stay =>
        dsimp only
        split_ifs with hnav
        · cases hfol : (followLinks cfg.maxDepth cfg.clickLinks env.follow 1 cfg.maxDepth).2 with
          | none => simp [completeVisit, countEv_append, countEv, isTerminalEv]
          | some e => simp [failVisit, countEv_append, countEv, isTerminalEv]
        · simp [completeVisit, countEv_append, countEv, isTerminalEv]

theorem visitSite_captcha_case (cfg : Config) (env : VisitEnv) (url : String) (s : Session)
    (v : ℕ) (hg : env.gotoR = .ok v) (hc : env.captcha = true) :
    (visitSite cfg env url s).stats.sitesFailed = s.stats.sitesFailed + 1 ∧
      (visitSite cfg env url s).stats.sitesSuccessful = s.stats.sitesSuccessful ∧
      countEv isCaptchaEv (visitSite cfg env url s).events
        = countEv isCaptchaEv s.events + 1 ∧
      countEv isSiteFailedEv (visitSite cfg env url s).events
        = countEv isSiteFailedEv s.events ∧
      countEv isSiteCompleteEv (visitSite cfg env url s).events
        = countEv isSiteCompleteEv s.events := by
  unfold visitSite
  rw [hg]
  dsimp only
  rw [if_pos hc]
  simp [countEv_append, countEv, isCaptchaEv, isSiteFailedEv, isSiteCompleteEv]

/-- C1 (amended): a visit where navigation succeeds and a captcha marker is
detected increments `sitesFailed`, leaves `sitesSuccessful` untouched and is
skipped without retry — but it emits `captchaDetected`, not `siteFailed`.
Every visit ends by emitting exactly one of `siteComplete`, `siteFailed`, or
`captchaDetected` (not, as claimed, one of the first two only; see the
counterexample). -/
theorem visitSite_terminal_accounting (cfg : Config) (env : VisitEnv) (url : String)
    (s : Session) :
    countEv isTerminalEv (visitSite cfg env url s).events
        = countEv isTerminalEv s.events + 1 ∧
      ∀ v, env.gotoR = .ok v → env.captcha = true →
        (visitSite cfg env url s).stats.sitesFailed = s.stats.sitesFailed + 1 ∧
          (visitSite cfg env url s).stats.sitesSuccessful = s.stats.sitesSuccessful ∧
          countEv isCaptchaEv (visitSite cfg env url s).events
            = countEv isCaptchaEv s.events + 1 ∧
          countEv isSiteFailedEv (visitSite cfg env url s).events
            = countEv isSiteFailedEv s.events ∧
          countEv isSiteCompleteEv (visitSite cfg env url s).events
            = countEv isSiteCompleteEv s.events :=
  ⟨visitSite_emits_one_terminal cfg env url s,
    fun v hg hc => visitSite_captcha_case cfg env url s v hg hc⟩

/-- Witness for C1's amended theorem at a concrete captcha visit. -/
theorem visitSite_terminal_accounting_witness :
    countEv isTerminalEv (visitSite cfgPlain envCaptcha "u" initialSession).events
        = countEv isTerminalEv initialSession.events + 1 ∧
      (visitSite cfgPlain envCaptcha "u" initialSession).stats.sitesFailed
        = initialSession.stats.sitesFailed + 1 ∧
      countEv isCaptchaEv (visitSite cfgPlain envCaptcha "u" initialSession).events
        = countEv isCaptchaEv initialSession.events + 1 := by
  obtain ⟨h1, h2⟩ := visitSite_terminal_accounting cfgPlain envCaptcha "u" initialSession
  have h3 := h2 200 rfl rfl
  exact ⟨h1, h3.1, h3.2.2.1⟩

/-- C1 counterexample: a captcha visit emits `siteStart`, `pageVisited`,
`captchaDetected` — neither `siteComplete` nor `siteFailed` — refuting "every
visit ends by emitting either a `siteComplete` event or a `siteFailed` event". -/
theorem visitSite_captcha_counterexample :
    (visitSite cfgPlain envCaptcha "u" initialSession).events
        = [.siteStart "u", .pageVisited "u", .captchaDetected "u"] ∧
      countEv isSiteCompleteEv (visitSite cfgPlain envCaptcha "u" initialSession).events = 0 ∧
      countEv isSiteFailedEv (visitSite cfgPlain envCaptcha "u" initialSession).events = 0 := by
  refine ⟨?_, ?_, ?_⟩ <;>
    simp [visitSite, envCaptcha, cfgPlain, initialSession, initialStats,
      countEv, isSiteCompleteEv, isSiteFailedEv]

/-! ### C2: navigation retry with backoff, site-level failure only -/

theorem goto_fail_three (e : String) (nav : ℕ → Except String ℕ)
    (hnav : ∀ a, nav a = .error e) :
    gotoModel nav 3 = (.error e, [1000, 2000]) := by
  norm_num [gotoModel, gotoAux, hnav]

/-- C2: a navigation that always throws is retried 3 times with backoff
delays `min(1000·2^(attempt-1), 10000)` (concretely 1000 ms then 2000 ms)
before `goto` rethrows; in the two-destination scenario whose first site
always fails navigation, the visit is recorded as a site-level failure
(`sitesFailed = 1`), the second site still succeeds (`sitesSuccessful = 1`),
and the session ends in state `stopped` with no session-level error. -/
theorem navigation_retry_survives (e : String) (nav : ℕ → Except String ℕ)
    (hnav : ∀ a, nav a = .error e) :
    gotoModel nav 3 = (.error e, [1000, 2000]) ∧
      (gotoModel nav 3).2 = (List.range 2).map (fun k => min (1000 * 2 ^ k) 10000) ∧
      (scenarioTwoSites e).2 = none ∧
      (scenarioTwoSites e).1.state = SessionState.stopped ∧
      (scenarioTwoSites e).1.stats.sitesFailed = 1 ∧
      (scenarioTwoSites e).1.stats.sitesSuccessful = 1 ∧
      (scenarioTwoSites e).1.stats.sitesVisited = 2 := by
  have hgoto := goto_fail_three e nav hnav
  have hgoto2 : (gotoModel (navAlwaysFail e) 3).1 = .error e := by
    norm_num [gotoModel, gotoAux, navAlwaysFail]
  refine ⟨hgoto, by rw [hgoto]; norm_num [List.range_succ], ?_, ?_, ?_, ?_, ?_⟩ <;>
    simp +decide [scenarioTwoSites, startModel, startBody, visitSitesAux, visitSite,
      failVisit, completeVisit, applyStayActs, envsTwoSites, envOk, hgoto2,
      cfgPlain, dataTwoSites, initialSession, initialStats, getSites, dedupedSites,
      collectSites, setDedup, setDedupAux, lookupSites]

/-- Witness for C2 at the concrete always-failing navigation oracle. -/
theorem navigation_retry_survives_witness :
    gotoModel (navAlwaysFail "net::ERR_FAILED") 3
        = (.error "net::ERR_FAILED", [1000, 2000]) ∧
      (scenarioTwoSites "net::ERR_FAILED").1.state = SessionState.stopped ∧
      (scenarioTwoSites "net::ERR_FAILED").1.stats.sitesFailed = 1 ∧
      (scenarioTwoSites "net::ERR_FAILED").1.stats.sitesSuccessful = 1 := by
  obtain ⟨h1, _, _, h4, h5, h6, _⟩ :=
    navigation_retry_survives "net::ERR_FAILED" (navAlwaysFail "net::ERR_FAILED")
      (fun a => rfl)
  exact ⟨h1, h4, h5, h6⟩

/-! ### C6: empty queue fails `start()` atomically -/

/-- C6: when the built site queue is empty, `start()` raises
`'No sites to visit. Check your configuration.'` and leaves the session's
state, `stats.startTime` and emitted events exactly as they were: the state is
not set to `running`, `startTime` is not stamped and no `started` event is
emitted. -/
theorem start_emptyQueue_leaves_session (init : Session → Session × Option String)
    (data : SitesData) (cfg : Config) (shuffleDraw : ℕ → ℚ) (now0 : ℕ)
    (elapsed : ℕ → ℚ) (envs : ℕ → VisitEnv) (sm : Session → Session) (endT : ℕ)
    (s : Session) (hidle : s.state = SessionState.idle)
    (hq : getSites data cfg.categories
        ⟨cfg.custom, cfg.exclude, cfg.maxSites, cfg.shuffleSites⟩ shuffleDraw = []) :
    (startModel init data cfg shuffleDraw now0 elapsed envs sm endT s).2
        = some "No sites to visit. Check your configuration." ∧
      (startModel init data cfg shuffleDraw now0 elapsed envs sm endT s).1.state = s.state ∧
      (startModel init data cfg shuffleDraw now0 elapsed envs sm endT s).1.stats.startTime
        = s.stats.startTime ∧
      (startModel init data cfg shuffleDraw now0 elapsed envs sm endT s).1.events
        = s.events := by
  unfold startModel
  rw [if_neg (by simp [hidle])]
  unfold startBody
  rw [hq]
  simp

/-- Witness for C6: an idle fresh session over an empty sites file. -/
theorem start_emptyQueue_witness :
    (startModel (fun s => (s, none)) ⟨[], none⟩ cfgPlain (fun _ => 0) 0 (fun _ => 0)
        (fun _ => envOk) id 0 initialSession).2
        = some "No sites to visit. Check your configuration." ∧
      (startModel (fun s => (s, none)) ⟨[], none⟩ cfgPlain (fun _ => 0) 0 (fun _ => 0)
        (fun _ => envOk) id 0 initialSession).1.state = initialSession.state ∧
      (startModel (fun s => (s, none)) ⟨[], none⟩ cfgPlain (fun _ => 0) 0 (fun _ => 0)
        (fun _ => envOk) id 0 initialSession).1.stats.startTime
        = initialSession.stats.startTime ∧
      (startModel (fun s => (s, none)) ⟨[], none⟩ cfgPlain (fun _ => 0) 0 (fun _ => 0)
        (fun _ => envOk) id 0 initialSession).1.events = initialSession.events :=
  start_emptyQueue_leaves_session _ _ _ _ _ _ _ _ _ _ rfl (by decide)

/-! ### C10: the `initialize()` branch of `start()` is unreachable -/

/-- C10: the guard of `start()` requires the state to be neither `starting`
nor `idle` while its inner branch requires `idle`, so the branch calling
`initialize()` is unreachable: the dispatch always proceeds or throws, a
fresh idle session proceeds directly (never initializing the browser first),
and `start()`'s result does not depend on the `initialize` oracle at all. -/
theorem startDispatch_no_initialize :
    (∀ st : SessionState, startDispatch st = StartDispatch.proceed ∨
        startDispatch st = StartDispatch.throwBadState) ∧
      startDispatch SessionState.idle = StartDispatch.proceed ∧
      ∀ (init₁ init₂ : Session → Session × Option String) data cfg shuffleDraw now0
          elapsed envs searchesModel endT s,
        startModel init₁ data cfg shuffleDraw now0 elapsed envs searchesModel endT s =
          startModel init₂ data cfg shuffleDraw now0 elapsed envs searchesModel endT s := by
  refine ⟨?_, by decide, ?_⟩
  · intro st
    unfold startDispatch
    split_ifs with h1 h2
    · exact absurd h2 h1.2
    · right; rfl
    · left; rfl
  · intro init₁ init₂ data cfg sd n0 el envs sm eT s
    unfold startModel
    split_ifs with h1 h2
    · exact absurd h2 h1.2
    · rfl
    · rfl

/-! ### C8: protocol commands without an attached session -/

/-- C8: with no session attached, each of `start`, `stop`, `pause`, `resume`,
`stats`, `screenshot`, `goto` is answered with a structured `response` message
carrying `success:false` and `error:"No session attached"` (and no data
payload) — never a protocol-level failure, since the handler is total — while
`list_clients`, `status` and `config` succeed with no error regardless. -/
theorem handleCommand_no_session (dataUrl rid : Option String) :
    (∀ cmd ∈ ([Cmd.start, .stop, .pause, .resume, .stats, .screenshot, .goto] : List Cmd),
        handleCommand none cmd dataUrl rid =
          ⟨cmd, rid, false, false, some "No session attached"⟩) ∧
      ∀ cmd ∈ ([Cmd.list_clients, .status, .config] : List Cmd),
        (handleCommand none cmd dataUrl rid).success = true ∧
          (handleCommand none cmd dataUrl rid).error = none := by
  constructor <;> intro cmd hcmd <;> fin_cases hcmd <;>
    simp [handleCommand, respErr, respOk]

/-- Witness for C8: the `start` command is refused and `status` succeeds when
no session is attached. -/
theorem handleCommand_no_session_witness :
    handleCommand none Cmd.start none none =
        ⟨Cmd.start, none, false, false, some "No session attached"⟩ ∧
      (handleCommand none Cmd.status none none).success = true ∧
      (handleCommand none Cmd.status none none).error = none := by
  obtain ⟨h1, h2⟩ := handleCommand_no_session none none
  exact ⟨h1 Cmd.start (by simp), (h2 Cmd.status (by simp)).1, (h2 Cmd.status (by simp)).2⟩

end BrowserWarmer
